import Mathlib

/-!
Verification of the workout-statistics calculator (homework.py).

The Python source computes distance, mean speed and spent calories for three
training variants (Running, SportsWalking, Swimming), dispatches an activity
code to the matching constructor, and renders a fixed-template report.

Embedding choices:
* Python floats are modelled as exact rationals (ℚ); the decimal literals of
  the source (0.65, 1.38, 0.035, 0.029, 1.1) are exact ℚ values.
* Python raises on division by zero (both `/` and `//` raise ZeroDivisionError
  for floats), on a missing dict key (KeyError, a LookupError subclass), on a
  wrong-arity constructor call (TypeError), and on formatting None with a
  float format spec (TypeError).  Fallible computations therefore return
  `Except PyErr _`.
* Inherited methods are embedded once on the base structure and reused by the
  subclass wrappers, with the dynamically dispatched `LEN_STEP` passed
  explicitly, mirroring Python attribute lookup.
-/

/-- The kinds of Python exceptions the program can raise. -/
inductive PyErr where
  /-- ZeroDivisionError: float division (or floor division) by zero. -/
  | zeroDivision
  /-- KeyError (a LookupError subclass): missing dict key in the dispatcher. -/
  | keyError
  /-- TypeError: wrong-arity constructor call, or formatting None with a
      float format spec. -/
  | typeError
  deriving DecidableEq, Repr

deriving instance DecidableEq for Except

/-- Python float `/`: raises ZeroDivisionError when the divisor is zero. -/
def pydiv (a b : ℚ) : Except PyErr ℚ :=
  if b = 0 then .error .zeroDivision else .ok (a / b)

/-- Python float `//`: floor division, raising ZeroDivisionError when the
divisor is zero.  The Python result is a float with integral value; we keep
the integer floor cast back to ℚ. -/
def pyfloordiv (a b : ℚ) : Except PyErr ℚ :=
  if b = 0 then .error .zeroDivision else .ok ((⌊a / b⌋ : ℤ) : ℚ)

/-- Class `Training`: shared fields of every training record
(`action`, `duration` in hours, `weight` in kg). -/
structure Training where
  action : ℚ
  duration : ℚ
  weight : ℚ
  deriving DecidableEq, Repr

namespace Training

/-- `Training.LEN_STEP = 0.65` (metres per step). -/
def LEN_STEP : ℚ := 0.65

/-- `Training.M_IN_KM = 1000`. -/
def M_IN_KM : ℚ := 1000

/-- `Training.MIN_IN_HOUR = 60`. -/
def MIN_IN_HOUR : ℚ := 60

/-- `Training.get_distance`, with the dynamically dispatched `self.LEN_STEP`
passed explicitly: `self.action * self.LEN_STEP / self.M_IN_KM`. -/
def get_distance_with (len_step : ℚ) (t : Training) : ℚ :=
  t.action * len_step / M_IN_KM

/-- `Training.get_distance` as seen from a base-class or non-Swimming
instance (`LEN_STEP = 0.65`). -/
def get_distance (t : Training) : ℚ :=
  get_distance_with LEN_STEP t

/-- `Training.get_mean_speed`, `self.LEN_STEP` passed explicitly:
`self.get_distance() / self.duration` (raises on zero duration). -/
def get_mean_speed_with (len_step : ℚ) (t : Training) : Except PyErr ℚ :=
  pydiv (get_distance_with len_step t) t.duration

/-- `Training.get_mean_speed` for a base-class or non-Swimming instance. -/
def get_mean_speed (t : Training) : Except PyErr ℚ :=
  get_mean_speed_with LEN_STEP t

/-- `Training.get_spent_calories`: the body is `pass`, so the call returns
Python `None` (it does not raise). -/
def get_spent_calories (_t : Training) : Option ℚ :=
  none

end Training

/-- Class `Running` (extends `Training`, no extra fields). -/
structure Running where
  action : ℚ
  duration : ℚ
  weight : ℚ
  deriving DecidableEq, Repr

namespace Running

/-- The underlying base-class record of a `Running` instance. -/
def toTraining (r : Running) : Training :=
  ⟨r.action, r.duration, r.weight⟩

/-- `Running.RUN_COEFF_CAL_1 = 18`. -/
def RUN_COEFF_CAL_1 : ℚ := 18

/-- `Running.RUN_COEFF_CAL_2 = 20`. -/
def RUN_COEFF_CAL_2 : ℚ := 20

/-- Inherited `get_distance` (base `LEN_STEP = 0.65`). -/
def get_distance (r : Running) : ℚ :=
  r.toTraining.get_distance

/-- Inherited `get_mean_speed`. -/
def get_mean_speed (r : Running) : Except PyErr ℚ :=
  r.toTraining.get_mean_speed

/-- `Running.get_spent_calories`:
`(RUN_COEFF_CAL_1 * mean_speed - RUN_COEFF_CAL_2) * weight / M_IN_KM
 * duration * MIN_IN_HOUR`. -/
def get_spent_calories (r : Running) : Except PyErr ℚ := do
  let ms ← r.get_mean_speed
  pure ((RUN_COEFF_CAL_1 * ms - RUN_COEFF_CAL_2) * r.weight / Training.M_IN_KM
        * r.duration * Training.MIN_IN_HOUR)

end Running

/-- Class `SportsWalking` (extends `Training` with `height` in cm). -/
structure SportsWalking where
  action : ℚ
  duration : ℚ
  weight : ℚ
  height : ℚ
  deriving DecidableEq, Repr

namespace SportsWalking

/-- The underlying base-class record of a `SportsWalking` instance. -/
def toTraining (w : SportsWalking) : Training :=
  ⟨w.action, w.duration, w.weight⟩

/-- `SportsWalking.WLK_COEFF_CAL_1 = 0.035`. -/
def WLK_COEFF_CAL_1 : ℚ := 0.035

/-- `SportsWalking.WLK_COEFF_CAL_2 = 0.029`. -/
def WLK_COEFF_CAL_2 : ℚ := 0.029

/-- Inherited `get_distance` (base `LEN_STEP = 0.65`). -/
def get_distance (w : SportsWalking) : ℚ :=
  w.toTraining.get_distance

/-- Inherited `get_mean_speed`. -/
def get_mean_speed (w : SportsWalking) : Except PyErr ℚ :=
  w.toTraining.get_mean_speed

/-- `SportsWalking.get_spent_calories`:
`(WLK_COEFF_CAL_1 * weight + (mean_speed ** 2 // height) * WLK_COEFF_CAL_2
  * weight) * duration * MIN_IN_HOUR`.
Note the floor division `//` on the squared speed, and that it raises when
`height = 0`. -/
def get_spent_calories (w : SportsWalking) : Except PyErr ℚ := do
  let ms ← w.get_mean_speed
  let fd ← pyfloordiv (ms ^ 2) w.height
  pure ((WLK_COEFF_CAL_1 * w.weight + fd * WLK_COEFF_CAL_2 * w.weight)
        * w.duration * Training.MIN_IN_HOUR)

end SportsWalking

/-- Class `Swimming` (extends `Training` with `length_pool` in m and
`count_pool`; overrides `LEN_STEP` to 1.38). -/
structure Swimming where
  action : ℚ
  duration : ℚ
  weight : ℚ
  length_pool : ℚ
  count_pool : ℚ
  deriving DecidableEq, Repr

namespace Swimming

/-- The underlying base-class record of a `Swimming` instance. -/
def toTraining (s : Swimming) : Training :=
  ⟨s.action, s.duration, s.weight⟩

/-- `Swimming.LEN_STEP = 1.38` (metres per paddle stroke). -/
def LEN_STEP : ℚ := 1.38

/-- `Swimming.SWM_COEFF_CAL_1 = 1.1`. -/
def SWM_COEFF_CAL_1 : ℚ := 1.1

/-- `Swimming.SWM_COEFF_CAL_2 = 2`. -/
def SWM_COEFF_CAL_2 : ℚ := 2

/-- Inherited `get_distance`, but dynamic dispatch picks up
`Swimming.LEN_STEP = 1.38`. -/
def get_distance (s : Swimming) : ℚ :=
  Training.get_distance_with LEN_STEP s.toTraining

/-- `Swimming.get_mean_speed` (override):
`length_pool * count_pool / M_IN_KM / duration` (raises on zero duration). -/
def get_mean_speed (s : Swimming) : Except PyErr ℚ :=
  pydiv (s.length_pool * s.count_pool / Training.M_IN_KM) s.duration

/-- `Swimming.get_spent_calories`:
`(mean_speed + SWM_COEFF_CAL_1) * SWM_COEFF_CAL_2 * weight`. -/
def get_spent_calories (s : Swimming) : Except PyErr ℚ := do
  let ms ← s.get_mean_speed
  pure ((ms + SWM_COEFF_CAL_1) * SWM_COEFF_CAL_2 * s.weight)

end Swimming

/-- The result of `read_package`: an instance of one of the three training
subclasses. -/
inductive TrainingVariant where
  | run : Running → TrainingVariant
  | wlk : SportsWalking → TrainingVariant
  | swm : Swimming → TrainingVariant
  deriving DecidableEq, Repr

/-- Dynamic dispatch of `get_spent_calories` on a dispatched record. -/
def TrainingVariant.get_spent_calories : TrainingVariant → Except PyErr ℚ
  | .run r => r.get_spent_calories
  | .wlk w => w.get_spent_calories
  | .swm s => s.get_spent_calories

/-- Dynamic dispatch of `get_distance` on a dispatched record. -/
def TrainingVariant.get_distance : TrainingVariant → ℚ
  | .run r => r.get_distance
  | .wlk w => w.get_distance
  | .swm s => s.get_distance

/-- Dynamic dispatch of `get_mean_speed` on a dispatched record. -/
def TrainingVariant.get_mean_speed : TrainingVariant → Except PyErr ℚ
  | .run r => r.get_mean_speed
  | .wlk w => w.get_mean_speed
  | .swm s => s.get_mean_speed

/-- `read_package(workout_type, data)`:
looks `workout_type` up in `{'SWM': Swimming, 'RUN': Running,
'WLK': SportsWalking}` (KeyError when absent, a LookupError subclass) and
calls the constructor with `*data` (TypeError when the arity does not match
the constructor signature). -/
def read_package (workout_type : String) (data : List ℚ) :
    Except PyErr TrainingVariant :=
  if workout_type = "SWM" then
    match data with
    | [a, d, w, lp, cp] => .ok (.swm ⟨a, d, w, lp, cp⟩)
    | _ => .error .typeError
  else if workout_type = "RUN" then
    match data with
    | [a, d, w] => .ok (.run ⟨a, d, w⟩)
    | _ => .error .typeError
  else if workout_type = "WLK" then
    match data with
    | [a, d, w, h] => .ok (.wlk ⟨a, d, w, h⟩)
    | _ => .error .typeError
  else
    .error .keyError

/-!
Report formatting.  Python renders each numeric field with the format spec
`:.3f`: the value is scaled by 1000, rounded half-to-even, and printed with
exactly three digits after the decimal point (zero padded).  We embed that
rendering directly as string concatenation of the fixed template pieces.
-/

/-- Round half-to-even, the rounding used by Python float formatting. -/
def roundHalfEven (q : ℚ) : ℤ :=
  if Int.fract q < 1 / 2 then ⌊q⌋
  else if 1 / 2 < Int.fract q then ⌊q⌋ + 1
  else if ⌊q⌋ % 2 = 0 then ⌊q⌋ else ⌊q⌋ + 1

/-- The value scaled to thousandths and rounded, as rendered by `:.3f`. -/
def scaled3 (q : ℚ) : ℤ := roundHalfEven (q * 1000)

/-- Three zero-padded decimal digits. -/
def threeDigits (k : ℕ) : String :=
  String.mk [Nat.digitChar (k / 100 % 10), Nat.digitChar (k / 10 % 10),
             Nat.digitChar (k % 10)]

/-- The part of `:.3f` output before the decimal point (sign and integer
part). -/
def intPart3 (q : ℚ) : String :=
  (if scaled3 q < 0 then "-" else "") ++ toString ((scaled3 q).natAbs / 1000)

/-- The part of `:.3f` output after the decimal point: exactly three
digits. -/
def fracPart3 (q : ℚ) : String :=
  threeDigits ((scaled3 q).natAbs % 1000)

/-- Python `'\x7b:.3f\x7d'.format(q)`. -/
def format3 (q : ℚ) : String :=
  intPart3 q ++ "." ++ fracPart3 q

/-- Dataclass `InfoMessage`.  `calories` is `Option ℚ` because the base
class `Training.get_spent_calories` returns `None`; the three subclasses
always supply a float.  The constant `message` template field is embedded
inside `get_message` below. -/
structure InfoMessage where
  training_type : String
  duration : ℚ
  distance : ℚ
  speed : ℚ
  calories : Option ℚ
  deriving DecidableEq, Repr

/-- `InfoMessage.get_message`: `self.message.format(**asdict(self))`.
Formatting `None` with the `:.3f` spec raises TypeError; otherwise the fixed
Russian-language template is filled with the `:.3f` renderings. -/
def InfoMessage.get_message (m : InfoMessage) : Except PyErr String :=
  match m.calories with
  | none => .error .typeError
  | some c =>
      .ok ("Тип тренировки: " ++ m.training_type ++ "; "
           ++ "Длительность: " ++ format3 m.duration ++ " ч.; "
           ++ "Дистанция: " ++ format3 m.distance ++ " км; "
           ++ "Ср. скорость: " ++ format3 m.speed ++ " км/ч; "
           ++ "Потрачено ккал: " ++ format3 c ++ ".")

/-- `Training.show_training_info` on a plain (non-subclassed) `Training`
instance: `InfoMessage(self.__class__.__name__, self.duration,
self.get_distance(), self.get_mean_speed(), self.get_spent_calories())`;
arguments are evaluated left to right and `get_mean_speed` may raise. -/
def Training.show_training_info (t : Training) : Except PyErr InfoMessage := do
  let ms ← t.get_mean_speed
  pure ⟨"Training", t.duration, t.get_distance, ms, t.get_spent_calories⟩

/-- Inherited `show_training_info` on a `Running` instance (dynamic dispatch
picks the overridden `get_spent_calories`). -/
def Running.show_training_info (r : Running) : Except PyErr InfoMessage := do
  let ms ← r.get_mean_speed
  let cal ← r.get_spent_calories
  pure ⟨"Running", r.duration, r.get_distance, ms, some cal⟩

/-- Inherited `show_training_info` on a `SportsWalking` instance. -/
def SportsWalking.show_training_info (w : SportsWalking) :
    Except PyErr InfoMessage := do
  let ms ← w.get_mean_speed
  let cal ← w.get_spent_calories
  pure ⟨"SportsWalking", w.duration, w.get_distance, ms, some cal⟩

/-- Inherited `show_training_info` on a `Swimming` instance. -/
def Swimming.show_training_info (s : Swimming) : Except PyErr InfoMessage := do
  let ms ← s.get_mean_speed
  let cal ← s.get_spent_calories
  pure ⟨"Swimming", s.duration, s.get_distance, ms, some cal⟩

/-!  Evaluation lemmas shared by the claim proofs.  -/

/-- Binding a successful `Except` computation applies the continuation. -/
theorem ok_bind {α β : Type} (x : α) (f : α → Except PyErr β) :
    (Except.ok x : Except PyErr α) >>= f = f x := rfl

/-- Binding a failed `Except` computation propagates the error. -/
theorem error_bind {α β : Type} (e : PyErr) (f : α → Except PyErr β) :
    (Except.error e : Except PyErr α) >>= f = Except.error e := rfl

/-- `pure` is `Except.ok`. -/
theorem pure_eq_ok {α : Type} (x : α) : (pure x : Except PyErr α) = .ok x := rfl

/-- Closed form of `Running.get_distance`. -/
theorem running_distance_eval (a d w : ℚ) :
    (Running.mk a d w).get_distance = a * 0.00065 := by
  show a * (0.65 : ℚ) / 1000 = a * 0.00065
  ring

/-- Closed form of `Running.get_mean_speed` for nonzero duration. -/
theorem running_mean_speed_eval (a d w : ℚ) (hd : d ≠ 0) :
    (Running.mk a d w).get_mean_speed = .ok (a * 0.00065 / d) := by
  simp only [Running.get_mean_speed, Training.get_mean_speed,
    Training.get_mean_speed_with, Training.get_distance_with,
    Running.toTraining, pydiv, Training.LEN_STEP, Training.M_IN_KM, if_neg hd]
  congr 1
  ring

/-- Closed form of `Running.get_spent_calories` for nonzero duration. -/
theorem running_calories_eval (a d w : ℚ) (hd : d ≠ 0) :
    (Running.mk a d w).get_spent_calories
      = .ok ((18 * (a * 0.00065 / d) - 20) * w / 1000 * d * 60) := by
  rw [Running.get_spent_calories, running_mean_speed_eval a d w hd, ok_bind,
    pure_eq_ok, Running.RUN_COEFF_CAL_1, Running.RUN_COEFF_CAL_2,
    Training.M_IN_KM, Training.MIN_IN_HOUR]

/-- Closed form of `SportsWalking.get_distance`. -/
theorem walking_distance_eval (a d w h : ℚ) :
    (SportsWalking.mk a d w h).get_distance = a * 0.00065 := by
  show a * (0.65 : ℚ) / 1000 = a * 0.00065
  ring

/-- Closed form of `SportsWalking.get_mean_speed` for nonzero duration. -/
theorem walking_mean_speed_eval (a d w h : ℚ) (hd : d ≠ 0) :
    (SportsWalking.mk a d w h).get_mean_speed = .ok (a * 0.00065 / d) := by
  simp only [SportsWalking.get_mean_speed, Training.get_mean_speed,
    Training.get_mean_speed_with, Training.get_distance_with,
    SportsWalking.toTraining, pydiv, Training.LEN_STEP, Training.M_IN_KM,
    if_neg hd]
  congr 1
  ring

/-- Closed form of `SportsWalking.get_spent_calories` for nonzero duration
and nonzero height. -/
theorem walking_calories_eval (a d w h : ℚ) (hd : d ≠ 0) (hh : h ≠ 0) :
    (SportsWalking.mk a d w h).get_spent_calories
      = .ok ((0.035 * w + (⌊(a * 0.00065 / d) ^ 2 / h⌋ : ℚ) * 0.029 * w)
             * d * 60) := by
  rw [SportsWalking.get_spent_calories,
    walking_mean_speed_eval a d w h hd, ok_bind]
  show pyfloordiv _ _ >>= _ = _
  rw [pyfloordiv, if_neg hh, ok_bind, pure_eq_ok,
    SportsWalking.WLK_COEFF_CAL_1, SportsWalking.WLK_COEFF_CAL_2,
    Training.MIN_IN_HOUR]

/-- Closed form of `Swimming.get_distance`. -/
theorem swimming_distance_eval (a d w lp cp : ℚ) :
    (Swimming.mk a d w lp cp).get_distance = a * 0.00138 := by
  show a * (1.38 : ℚ) / 1000 = a * 0.00138
  ring

/-- Closed form of `Swimming.get_mean_speed` for nonzero duration. -/
theorem swimming_mean_speed_eval (a d w lp cp : ℚ) (hd : d ≠ 0) :
    (Swimming.mk a d w lp cp).get_mean_speed = .ok (lp * cp / 1000 / d) := by
  simp only [Swimming.get_mean_speed, pydiv, Training.M_IN_KM, if_neg hd]

/-- Closed form of `Swimming.get_spent_calories` for nonzero duration. -/
theorem swimming_calories_eval (a d w lp cp : ℚ) (hd : d ≠ 0) :
    (Swimming.mk a d w lp cp).get_spent_calories
      = .ok ((lp * cp / 1000 / d + 1.1) * 2 * w) := by
  rw [Swimming.get_spent_calories, swimming_mean_speed_eval a d w lp cp hd,
    ok_bind, pure_eq_ok, Swimming.SWM_COEFF_CAL_1, Swimming.SWM_COEFF_CAL_2]

/-!  Theorems for the claims.  -/

/-- Claim C1, counterexample.  Dispatching `("RUN", [15000, 1, 75])` and
asking for spent calories yields exactly 699.75 = 2799/4, which is not
approximately 1285.5 (it differs by 585.75, far beyond any rounding
precision), so the claimed value is false. -/
theorem C1_counterexample :
    (read_package "RUN" [15000, 1, 75]).bind TrainingVariant.get_spent_calories
      = .ok (2799 / 4) ∧
    ¬ |(2799 / 4 : ℚ) - 1285.5| ≤ 1 / 2 := by
  constructor
  · have h1 : read_package "RUN" [15000, 1, 75]
        = .ok (.run (Running.mk 15000 1 75)) := rfl
    rw [h1]
    show (Running.mk 15000 1 75).get_spent_calories = .ok (2799 / 4)
    rw [running_calories_eval 15000 1 75 (by norm_num)]
    norm_num
  · have h : |(2799 / 4 : ℚ) - 1285.5| = 2343 / 4 := by
      rw [show (2799 / 4 : ℚ) - 1285.5 = -(2343 / 4) by norm_num, abs_neg,
        abs_of_pos]
      norm_num
    rw [h]
    norm_num

/-- Claim C1, amended: dispatching the sample package with code `"RUN"` and
data `[15000, 1, 75]` and calling `get_spent_calories` on the result
produces exactly 699.75 calories. -/
theorem C1_run_golden :
    (read_package "RUN" [15000, 1, 75]).bind TrainingVariant.get_spent_calories
      = .ok 699.75 := by
  have h1 : read_package "RUN" [15000, 1, 75]
      = .ok (.run (Running.mk 15000 1 75)) := rfl
  rw [h1]
  show (Running.mk 15000 1 75).get_spent_calories = .ok 699.75
  rw [running_calories_eval 15000 1 75 (by norm_num)]
  norm_num

/-- Claim C2: for every `Running` record with positive duration and weight,
`get_distance` is `action * 0.00065`, `get_mean_speed` is
`distance / duration`, and `get_spent_calories` is
`(18 * mean_speed - 20) * weight / 1000 * duration * 60`. -/
theorem C2_running_formulas (a d w : ℚ) (hd : 0 < d) (hw : 0 < w) :
    (Running.mk a d w).get_distance = a * 0.00065 ∧
    (Running.mk a d w).get_mean_speed
      = .ok ((Running.mk a d w).get_distance / d) ∧
    (Running.mk a d w).get_spent_calories
      = .ok ((18 * (a * 0.00065 / d) - 20) * w / 1000 * d * 60) := by
  rw [running_distance_eval, running_mean_speed_eval a d w hd.ne',
    running_calories_eval a d w hd.ne']
  exact ⟨rfl, rfl, rfl⟩

/-- Witness for C2 at the golden running sample `(15000, 1, 75)`. -/
theorem C2_witness :
    (Running.mk 15000 1 75).get_distance = 15000 * 0.00065 ∧
    (Running.mk 15000 1 75).get_mean_speed
      = .ok ((Running.mk 15000 1 75).get_distance / 1) ∧
    (Running.mk 15000 1 75).get_spent_calories
      = .ok ((18 * (15000 * 0.00065 / 1) - 20) * 75 / 1000 * 1 * 60) :=
  C2_running_formulas 15000 1 75 (by norm_num) (by norm_num)

/-- Claim C3, counterexample.  The claim quantifies over every
`SportsWalking` record with positive duration, but at height 0 the floor
division `mean_speed ** 2 // height` raises ZeroDivisionError, so
`get_spent_calories` returns no value at all (in particular not the claimed
formula value). -/
theorem C3_counterexample :
    (0 : ℚ) < (SportsWalking.mk 9000 1 75 0).duration ∧
    (SportsWalking.mk 9000 1 75 0).get_spent_calories
      = .error .zeroDivision ∧
    (SportsWalking.mk 9000 1 75 0).get_spent_calories
      ≠ .ok ((0.035 * 75 + (⌊((9000 : ℚ) * 0.00065 / 1) ^ 2 / 0⌋ : ℚ)
              * 0.029 * 75) * 1 * 60) := by
  have herr : (SportsWalking.mk 9000 1 75 0).get_spent_calories
      = .error .zeroDivision := by
    rw [SportsWalking.get_spent_calories,
      walking_mean_speed_eval 9000 1 75 0 (by norm_num), ok_bind]
    show pyfloordiv _ _ >>= _ = _
    rw [pyfloordiv, if_pos rfl, error_bind]
  refine ⟨by norm_num [SportsWalking.mk], herr, ?_⟩
  rw [herr]
  simp

/-- Claim C3, amended: for every `SportsWalking` record with positive
duration and nonzero height, `get_spent_calories` returns
`(0.035 * weight + floor(mean_speed ^ 2 / height) * 0.029 * weight)
 * duration * 60`, where `mean_speed` is the base (non-swimming) value
`distance / duration` and the floor is the integer floor of the
quotient. -/
theorem C3_walking_formula (a d w h : ℚ) (hd : 0 < d) (hh : h ≠ 0) :
    (SportsWalking.mk a d w h).get_mean_speed
      = .ok ((SportsWalking.mk a d w h).get_distance / d) ∧
    (SportsWalking.mk a d w h).get_spent_calories
      = .ok ((0.035 * w + (⌊(a * 0.00065 / d) ^ 2 / h⌋ : ℚ) * 0.029 * w)
             * d * 60) := by
  rw [walking_distance_eval, walking_mean_speed_eval a d w h hd.ne',
    walking_calories_eval a d w h hd.ne' hh]
  exact ⟨rfl, rfl⟩

/-- Witness for C3 at the golden walking sample `(9000, 1, 75, 180)`. -/
theorem C3_witness :
    (SportsWalking.mk 9000 1 75 180).get_mean_speed
      = .ok ((SportsWalking.mk 9000 1 75 180).get_distance / 1) ∧
    (SportsWalking.mk 9000 1 75 180).get_spent_calories
      = .ok ((0.035 * 75 + (⌊((9000 : ℚ) * 0.00065 / 1) ^ 2 / 180⌋ : ℚ)
              * 0.029 * 75) * 1 * 60) :=
  C3_walking_formula 9000 1 75 180 (by norm_num) (by norm_num)

/-- Claim C4: for every `Swimming` record with positive duration,
`get_mean_speed` returns `length_pool * count_pool / 1000 / duration`
(overriding the base formula), `get_spent_calories` returns
`(mean_speed + 1.1) * 2 * weight`, and `get_distance` returns
`action * 0.00138` (step length 1.38 m instead of the default 0.65 m). -/
theorem C4_swimming_formulas (a d w lp cp : ℚ) (hd : 0 < d) :
    (Swimming.mk a d w lp cp).get_mean_speed = .ok (lp * cp / 1000 / d) ∧
    (Swimming.mk a d w lp cp).get_spent_calories
      = .ok ((lp * cp / 1000 / d + 1.1) * 2 * w) ∧
    (Swimming.mk a d w lp cp).get_distance = a * 0.00138 :=
  ⟨swimming_mean_speed_eval a d w lp cp hd.ne',
   swimming_calories_eval a d w lp cp hd.ne',
   swimming_distance_eval a d w lp cp⟩

/-- Witness for C4 at the golden swimming sample `(720, 1, 80, 25, 40)`. -/
theorem C4_witness :
    (Swimming.mk 720 1 80 25 40).get_mean_speed
      = .ok (25 * 40 / 1000 / 1) ∧
    (Swimming.mk 720 1 80 25 40).get_spent_calories
      = .ok ((25 * 40 / 1000 / 1 + 1.1) * 2 * 80) ∧
    (Swimming.mk 720 1 80 25 40).get_distance = 720 * 0.00138 :=
  C4_swimming_formulas 720 1 80 25 40 (by norm_num)

/-- Claim C5: for every activity-type code other than `"SWM"`, `"RUN"` and
`"WLK"`, `read_package` fails with the KeyError (LookupError-class) error
and returns no constructed record. -/
theorem C5_unknown_code (code : String) (data : List ℚ)
    (h1 : code ≠ "SWM") (h2 : code ≠ "RUN") (h3 : code ≠ "WLK") :
    read_package code data = .error .keyError := by
  unfold read_package
  rw [if_neg h1, if_neg h2, if_neg h3]

/-- Witness for C5 at the unknown code `"XYZ"`. -/
theorem C5_witness : read_package "XYZ" [720, 1, 80] = .error .keyError :=
  C5_unknown_code "XYZ" [720, 1, 80] (by decide) (by decide) (by decide)

/-- Claim C6: for each known activity-type code, `read_package` with a data
list whose length differs from that variant's constructor arity (3 for
Running, 4 for SportsWalking, 5 for Swimming) fails with the TypeError
(ArgumentError-class) error. -/
theorem C6_wrong_arity (data : List ℚ) :
    (data.length ≠ 3 → read_package "RUN" data = .error .typeError) ∧
    (data.length ≠ 4 → read_package "WLK" data = .error .typeError) ∧
    (data.length ≠ 5 → read_package "SWM" data = .error .typeError) := by
  rcases data with _ | ⟨a, _ | ⟨b, _ | ⟨c, _ | ⟨d, _ | ⟨e, _ | ⟨f, rest⟩⟩⟩⟩⟩⟩ <;>
    refine ⟨fun h => ?_, fun h => ?_, fun h => ?_⟩ <;>
    first
      | rfl
      | simp at h

/-- Witness for C6: a two-element data list is rejected for `"RUN"`. -/
theorem C6_witness :
    read_package "RUN" [15000, 1] = .error .typeError :=
  (C6_wrong_arity [15000, 1]).1 (by decide)

/-- `Training.get_mean_speed` at zero duration raises ZeroDivisionError. -/
theorem training_mean_speed_zero (a w : ℚ) :
    (Training.mk a 0 w).get_mean_speed = .error .zeroDivision := by
  simp [Training.get_mean_speed, Training.get_mean_speed_with, pydiv]

/-- Closed form of `Training.get_mean_speed` for nonzero duration. -/
theorem training_mean_speed_eval (a d w : ℚ) (hd : d ≠ 0) :
    (Training.mk a d w).get_mean_speed = .ok (a * 0.00065 / d) := by
  simp only [Training.get_mean_speed, Training.get_mean_speed_with,
    Training.get_distance_with, pydiv, Training.LEN_STEP, Training.M_IN_KM,
    if_neg hd]
  congr 1
  ring

/-- `Running.get_mean_speed` at zero duration raises ZeroDivisionError. -/
theorem running_mean_speed_zero (a w : ℚ) :
    (Running.mk a 0 w).get_mean_speed = .error .zeroDivision := by
  simp [Running.get_mean_speed, Training.get_mean_speed,
    Training.get_mean_speed_with, Running.toTraining, pydiv]

/-- `Running.get_spent_calories` propagates the zero-duration error. -/
theorem running_calories_zero (a w : ℚ) :
    (Running.mk a 0 w).get_spent_calories = .error .zeroDivision := by
  rw [Running.get_spent_calories, running_mean_speed_zero, error_bind]

/-- `SportsWalking.get_mean_speed` at zero duration raises
ZeroDivisionError. -/
theorem walking_mean_speed_zero (a w h : ℚ) :
    (SportsWalking.mk a 0 w h).get_mean_speed = .error .zeroDivision := by
  simp [SportsWalking.get_mean_speed, Training.get_mean_speed,
    Training.get_mean_speed_with, SportsWalking.toTraining, pydiv]

/-- `SportsWalking.get_spent_calories` propagates the zero-duration
error. -/
theorem walking_calories_zero (a w h : ℚ) :
    (SportsWalking.mk a 0 w h).get_spent_calories = .error .zeroDivision := by
  rw [SportsWalking.get_spent_calories, walking_mean_speed_zero,
    error_bind]

/-- `Swimming.get_mean_speed` at zero duration raises ZeroDivisionError. -/
theorem swimming_mean_speed_zero (a w lp cp : ℚ) :
    (Swimming.mk a 0 w lp cp).get_mean_speed = .error .zeroDivision := by
  simp [Swimming.get_mean_speed, pydiv]

/-- `Swimming.get_spent_calories` propagates the zero-duration error. -/
theorem swimming_calories_zero (a w lp cp : ℚ) :
    (Swimming.mk a 0 w lp cp).get_spent_calories = .error .zeroDivision := by
  rw [Swimming.get_spent_calories, swimming_mean_speed_zero, error_bind]

/-- Claim C7, counterexample.  A `SportsWalking` record with positive
duration (2) and height 0 raises ZeroDivisionError from
`get_spent_calories`, so it is not true that no getter raises whenever
duration is positive. -/
theorem C7_counterexample :
    (0 : ℚ) < (SportsWalking.mk 1000 2 70 0).duration ∧
    (SportsWalking.mk 1000 2 70 0).get_spent_calories
      = .error .zeroDivision := by
  constructor
  · norm_num [SportsWalking.mk]
  · rw [SportsWalking.get_spent_calories,
      walking_mean_speed_eval 1000 2 70 0 (by norm_num), ok_bind]
    show pyfloordiv _ _ >>= _ = _
    rw [pyfloordiv, if_pos rfl, error_bind]

/-- Claim C7, amended.  `get_distance` is total by construction (it is a
plain ℚ-valued function with no error channel).  For positive duration,
`get_mean_speed` succeeds on all three variants and `get_spent_calories`
succeeds on Running and Swimming, and on SportsWalking provided its height
is nonzero; at zero duration the mean-speed computation raises
ZeroDivisionError and every calorie computation propagates it; record
construction itself (dispatch with matching arity) succeeds for any field
values, zero duration included. -/
theorem C7_totality_and_zero_division (a d w h lp cp : ℚ) :
    (0 < d →
      (∃ v, (Running.mk a d w).get_mean_speed = .ok v) ∧
      (∃ v, (Running.mk a d w).get_spent_calories = .ok v) ∧
      (∃ v, (SportsWalking.mk a d w h).get_mean_speed = .ok v) ∧
      (∃ v, (Swimming.mk a d w lp cp).get_mean_speed = .ok v) ∧
      (∃ v, (Swimming.mk a d w lp cp).get_spent_calories = .ok v)) ∧
    (0 < d → h ≠ 0 →
      ∃ v, (SportsWalking.mk a d w h).get_spent_calories = .ok v) ∧
    (d = 0 →
      (Running.mk a d w).get_mean_speed = .error .zeroDivision ∧
      (Running.mk a d w).get_spent_calories = .error .zeroDivision ∧
      (SportsWalking.mk a d w h).get_mean_speed = .error .zeroDivision ∧
      (SportsWalking.mk a d w h).get_spent_calories = .error .zeroDivision ∧
      (Swimming.mk a d w lp cp).get_mean_speed = .error .zeroDivision ∧
      (Swimming.mk a d w lp cp).get_spent_calories = .error .zeroDivision) ∧
    (read_package "RUN" [a, d, w] = .ok (.run (Running.mk a d w)) ∧
     read_package "WLK" [a, d, w, h]
       = .ok (.wlk (SportsWalking.mk a d w h)) ∧
     read_package "SWM" [a, d, w, lp, cp]
       = .ok (.swm (Swimming.mk a d w lp cp))) := by
  refine ⟨fun hd => ?_, fun hd hh => ?_, fun hd0 => ?_, rfl, rfl, rfl⟩
  · exact ⟨⟨_, running_mean_speed_eval a d w hd.ne'⟩,
      ⟨_, running_calories_eval a d w hd.ne'⟩,
      ⟨_, walking_mean_speed_eval a d w h hd.ne'⟩,
      ⟨_, swimming_mean_speed_eval a d w lp cp hd.ne'⟩,
      ⟨_, swimming_calories_eval a d w lp cp hd.ne'⟩⟩
  · exact ⟨_, walking_calories_eval a d w h hd.ne' hh⟩
  · subst hd0
    exact ⟨running_mean_speed_zero a w, running_calories_zero a w,
      walking_mean_speed_zero a w h, walking_calories_zero a w h,
      swimming_mean_speed_zero a w lp cp, swimming_calories_zero a w lp cp⟩

/-- Witness for C7: at duration 1 the running getters succeed, the walking
calorie computation succeeds at height 180, and at duration 0 the running
mean speed raises ZeroDivisionError. -/
theorem C7_witness :
    (∃ v, (Running.mk 15000 1 75).get_mean_speed = .ok v) ∧
    (∃ v, (SportsWalking.mk 9000 1 75 180).get_spent_calories = .ok v) ∧
    (Running.mk 15000 0 75).get_mean_speed = .error .zeroDivision := by
  refine ⟨?_, ?_, ?_⟩
  · exact ((C7_totality_and_zero_division 15000 1 75 180 25 40).1
      (by norm_num)).1
  · exact (C7_totality_and_zero_division 9000 1 75 180 25 40).2.1
      (by norm_num) (by norm_num)
  · exact ((C7_totality_and_zero_division 15000 0 75 180 25 40).2.2.1 rfl).1

/-- Claim C8, counterexample.  Quantified over all fixed values of the
other fields, monotonicity in `action` fails: with negative weight the
Running calories decrease as `action` grows (1.2 at action 0 versus -69 at
action 100000); with negative action the SportsWalking calories decrease
as `action` grows towards 0 (22212 at action -20000 versus 157.5 at
action 0); and with negative height they decrease as `action` grows from 0
(157.5 at action 0 versus -21897 at action 20000).  Duration is 1 > 0 in
every case. -/
theorem C8_counterexample :
    ((0 : ℚ) ≤ 100000 ∧
      (Running.mk 0 1 (-1)).get_spent_calories = .ok (6 / 5) ∧
      (Running.mk 100000 1 (-1)).get_spent_calories = .ok (-69) ∧
      ¬ ((6 / 5 : ℚ) ≤ -69)) ∧
    ((-20000 : ℚ) ≤ 0 ∧
      (SportsWalking.mk (-20000) 1 75 1).get_spent_calories = .ok 22212 ∧
      (SportsWalking.mk 0 1 75 1).get_spent_calories = .ok (315 / 2) ∧
      ¬ ((22212 : ℚ) ≤ 315 / 2)) ∧
    ((0 : ℚ) ≤ 20000 ∧
      (SportsWalking.mk 0 1 75 (-1)).get_spent_calories = .ok (315 / 2) ∧
      (SportsWalking.mk 20000 1 75 (-1)).get_spent_calories = .ok (-21897) ∧
      ¬ ((315 / 2 : ℚ) ≤ -21897)) := by
  refine ⟨⟨by norm_num, ?_, ?_, by norm_num⟩,
    ⟨by norm_num, ?_, ?_, by norm_num⟩,
    ⟨by norm_num, ?_, ?_, by norm_num⟩⟩
  · rw [running_calories_eval 0 1 (-1) one_ne_zero]
    norm_num
  · rw [running_calories_eval 100000 1 (-1) one_ne_zero]
    norm_num
  · rw [walking_calories_eval (-20000) 1 75 1 one_ne_zero one_ne_zero]
    norm_num [Int.floor_eq_iff]
  · rw [walking_calories_eval 0 1 75 1 one_ne_zero one_ne_zero]
    norm_num
  · rw [walking_calories_eval 0 1 75 (-1) one_ne_zero (by norm_num)]
    norm_num
  · rw [walking_calories_eval 20000 1 75 (-1) one_ne_zero (by norm_num)]
    norm_num [Int.floor_eq_iff]

/-- Claim C8, amended: for all three variants, with duration positive,
both compared action values nonnegative, weight nonnegative, and (for
SportsWalking) height positive, `get_distance` and `get_spent_calories`
are monotonically non-decreasing in `action` with all other fields
fixed. -/
theorem C8_monotone_in_action (a1 a2 d w h lp cp : ℚ)
    (ha0 : 0 ≤ a1) (ha : a1 ≤ a2) (hd : 0 < d) (hw : 0 ≤ w) (hh : 0 < h) :
    (Running.mk a1 d w).get_distance ≤ (Running.mk a2 d w).get_distance ∧
    (SportsWalking.mk a1 d w h).get_distance
      ≤ (SportsWalking.mk a2 d w h).get_distance ∧
    (Swimming.mk a1 d w lp cp).get_distance
      ≤ (Swimming.mk a2 d w lp cp).get_distance ∧
    (∃ v1 v2, (Running.mk a1 d w).get_spent_calories = .ok v1 ∧
      (Running.mk a2 d w).get_spent_calories = .ok v2 ∧ v1 ≤ v2) ∧
    (∃ v1 v2, (SportsWalking.mk a1 d w h).get_spent_calories = .ok v1 ∧
      (SportsWalking.mk a2 d w h).get_spent_calories = .ok v2 ∧ v1 ≤ v2) ∧
    (∃ v1 v2, (Swimming.mk a1 d w lp cp).get_spent_calories = .ok v1 ∧
      (Swimming.mk a2 d w lp cp).get_spent_calories = .ok v2 ∧ v1 ≤ v2) := by
  have hms : a1 * 0.00065 / d ≤ a2 * 0.00065 / d := by gcongr
  have hms0 : 0 ≤ a1 * 0.00065 / d := by positivity
  refine ⟨?_, ?_, ?_,
    ⟨_, _, running_calories_eval a1 d w hd.ne',
      running_calories_eval a2 d w hd.ne', ?_⟩,
    ⟨_, _, walking_calories_eval a1 d w h hd.ne' hh.ne',
      walking_calories_eval a2 d w h hd.ne' hh.ne', ?_⟩,
    ⟨_, _, swimming_calories_eval a1 d w lp cp hd.ne',
      swimming_calories_eval a2 d w lp cp hd.ne', le_refl _⟩⟩
  · rw [running_distance_eval, running_distance_eval]
    gcongr
  · rw [walking_distance_eval, walking_distance_eval]
    gcongr
  · rw [swimming_distance_eval, swimming_distance_eval]
    gcongr
  · gcongr
  · have hsq : (a1 * 0.00065 / d) ^ 2 ≤ (a2 * 0.00065 / d) ^ 2 :=
      pow_le_pow_left₀ hms0 hms 2
    have hq : (a1 * 0.00065 / d) ^ 2 / h ≤ (a2 * 0.00065 / d) ^ 2 / h := by
      gcongr
    have hfl : ((⌊(a1 * 0.00065 / d) ^ 2 / h⌋ : ℤ) : ℚ)
        ≤ ((⌊(a2 * 0.00065 / d) ^ 2 / h⌋ : ℤ) : ℚ) := by
      exact_mod_cast Int.floor_le_floor hq
    gcongr

/-- Witness for C8 at actions 9000 ≤ 15000 with the golden field values. -/
theorem C8_witness :
    (Running.mk 9000 1 75).get_distance ≤ (Running.mk 15000 1 75).get_distance ∧
    (SportsWalking.mk 9000 1 75 180).get_distance
      ≤ (SportsWalking.mk 15000 1 75 180).get_distance ∧
    (Swimming.mk 9000 1 75 25 40).get_distance
      ≤ (Swimming.mk 15000 1 75 25 40).get_distance ∧
    (∃ v1 v2, (Running.mk 9000 1 75).get_spent_calories = .ok v1 ∧
      (Running.mk 15000 1 75).get_spent_calories = .ok v2 ∧ v1 ≤ v2) ∧
    (∃ v1 v2, (SportsWalking.mk 9000 1 75 180).get_spent_calories = .ok v1 ∧
      (SportsWalking.mk 15000 1 75 180).get_spent_calories = .ok v2 ∧
      v1 ≤ v2) ∧
    (∃ v1 v2, (Swimming.mk 9000 1 75 25 40).get_spent_calories = .ok v1 ∧
      (Swimming.mk 15000 1 75 25 40).get_spent_calories = .ok v2 ∧
      v1 ≤ v2) :=
  C8_monotone_in_action 9000 15000 1 75 180 25 40 (by norm_num) (by norm_num)
    (by norm_num) (by norm_num) (by norm_num)

/-- The `:.3f` rendering always has exactly three digits after the decimal
point. -/
theorem fracPart3_length (q : ℚ) : (fracPart3 q).length = 3 := rfl

/-- Claim C9: `get_message` is deterministic and idempotent (same report,
same string), and the rendered string is the fixed template with duration,
distance, speed and calories each rendered with exactly three digits after
the decimal point. -/
theorem C9_formatting (m : InfoMessage) (c : ℚ) (hc : m.calories = some c) :
    m.get_message = m.get_message ∧
    m.get_message
      = .ok ("Тип тренировки: " ++ m.training_type ++ "; "
           ++ "Длительность: "
           ++ (intPart3 m.duration ++ "." ++ fracPart3 m.duration) ++ " ч.; "
           ++ "Дистанция: "
           ++ (intPart3 m.distance ++ "." ++ fracPart3 m.distance) ++ " км; "
           ++ "Ср. скорость: "
           ++ (intPart3 m.speed ++ "." ++ fracPart3 m.speed) ++ " км/ч; "
           ++ "Потрачено ккал: "
           ++ (intPart3 c ++ "." ++ fracPart3 c) ++ ".") ∧
    (fracPart3 m.duration).length = 3 ∧
    (fracPart3 m.distance).length = 3 ∧
    (fracPart3 m.speed).length = 3 ∧
    (fracPart3 c).length = 3 := by
  obtain ⟨tt, du, di, sp, ca⟩ := m
  subst hc
  exact ⟨rfl, rfl, rfl, rfl, rfl, rfl⟩

/-- Witness for C9 at the rendered running report. -/
theorem C9_witness :
    (InfoMessage.mk "Running" 1 (39 / 4) (39 / 4)
        (some (2799 / 4))).get_message
      = (InfoMessage.mk "Running" 1 (39 / 4) (39 / 4)
          (some (2799 / 4))).get_message ∧
    (InfoMessage.mk "Running" 1 (39 / 4) (39 / 4)
        (some (2799 / 4))).get_message
      = .ok ("Тип тренировки: " ++ "Running" ++ "; "
           ++ "Длительность: "
           ++ (intPart3 1 ++ "." ++ fracPart3 1) ++ " ч.; "
           ++ "Дистанция: "
           ++ (intPart3 (39 / 4) ++ "." ++ fracPart3 (39 / 4)) ++ " км; "
           ++ "Ср. скорость: "
           ++ (intPart3 (39 / 4) ++ "." ++ fracPart3 (39 / 4)) ++ " км/ч; "
           ++ "Потрачено ккал: "
           ++ (intPart3 (2799 / 4) ++ "." ++ fracPart3 (2799 / 4)) ++ ".") ∧
    (fracPart3 (1 : ℚ)).length = 3 ∧
    (fracPart3 (39 / 4 : ℚ)).length = 3 ∧
    (fracPart3 (39 / 4 : ℚ)).length = 3 ∧
    (fracPart3 (2799 / 4 : ℚ)).length = 3 :=
  C9_formatting (InfoMessage.mk "Running" 1 (39 / 4) (39 / 4)
    (some (2799 / 4))) (2799 / 4) rfl

/-- Claim C10: the base `Training.get_spent_calories` returns `None` rather
than raising, so `show_training_info` on a plain `Training` record (with
nonzero duration, so that the mean-speed division succeeds) yields a report
whose calories field is `None`, and formatting that report then raises
TypeError (`None` cannot be rendered with the `:.3f` float format). -/
theorem C10_base_training (t : Training) (hd : t.duration ≠ 0) :
    t.get_spent_calories = none ∧
    ∃ info, t.show_training_info = .ok info ∧ info.calories = none ∧
      info.get_message = .error .typeError := by
  obtain ⟨a, d, w⟩ := t
  refine ⟨rfl, ⟨"Training", d, (Training.mk a d w).get_distance,
    a * 0.00065 / d, none⟩, ?_, rfl, rfl⟩
  rw [Training.show_training_info, training_mean_speed_eval a d w hd,
    ok_bind, pure_eq_ok]
  rfl

/-- Witness for C10 at a plain training record with duration 1. -/
theorem C10_witness :
    (Training.mk 100 1 70).get_spent_calories = none ∧
    ∃ info, (Training.mk 100 1 70).show_training_info = .ok info ∧
      info.calories = none ∧ info.get_message = .error .typeError :=
  C10_base_training (Training.mk 100 1 70) one_ne_zero
